import Mathlib

/-!
# Verification of the keras-cv object-detection core

This file gives a shallow embedding, in Lean 4, of the algorithmic core of the
keras-cv repository (anchor generation, box-delta encoding/decoding, and the
COCO-style recall and box-count metrics), together with theorems settling the
frozen claims about that code.

Conventions of the embedding:
* Machine floats are modelled by real numbers `ℝ` where genuinely real-valued
  functions (`sqrt`, `log`, `exp`) occur, and by rationals `ℚ` elsewhere, so
  that concrete instances can be evaluated.  TensorFlow's `divide_no_nan` is
  modelled by a guarded division; an ordinary float division whose result can
  be non-finite (NaN or an infinity) is modelled as an `Option`, with `none`
  standing for the non-finite outcomes.
* Ragged/batched tensors are modelled as nested lists; a "dict" keyed by
  pyramid level is an association list (Python dicts preserve insertion
  order), and `tf.tensor_scatter_nd_add` accumulators are functions from
  indices to counts.
* Bounding-box format conversion (`keras_cv.bounding_box.convert_format`) is
  the excluded external collaborator of the specification; the embeddings
  work directly in the fixed internal formats of each component
  (`center_yxhw` for the delta codec, `yxyx` corners for anchors, `xyxy` for
  the metric), where the conversion performed by the source is the identity.
* `_SingleAnchorGenerator.__call__` is embedded with the scalar stride and
  1-D size/aspect-ratio inputs documented in its own docstring ("stride: A
  single int represents the anchor stride size"); its arithmetic follows
  TensorFlow 1-D broadcasting.
* Helper functions of the metric that live in modules absent from the
  provided sources (`keras_cv.metrics.coco.utils`, `keras_cv.bounding_box.iou`)
  are modelled from the spec; their doc comments say so explicitly.
* Two staged functions crash on every call because of evident name slips:
  the delta codec raises `NameError` (unimported `convert_format`, stale
  `anchor_format` / `box_format` names), and `_BoxRecall.update_state`
  raises `TypeError` at `tf.shape(y_true)` on the bounding-box dict
  (recall.py line 168).  `boxRecallUpdateState` models the latter crash
  directly; the delta codec definitions embed the slip-repaired arithmetic
  their bodies spell out, as their doc comments state.
-/

set_option autoImplicit false

namespace KerasCV

universe u v

/-! ## Definitions: delta codec (`keras_cv/bounding_box/delta_encoding.py`)

`encode_box_to_deltas` and `decode_deltas_to_boxes` operate on boxes in
`center_yxhw` format: `(center_y, center_x, height, width)`.

The staged module cannot execute: it never imports `convert_format`, and its
bodies reference the undefined names `anchor_format` / `box_format` while the
parameters are `anchor_box_format` / `bounding_box_format` (lines 37-46 and
82-98), so every call raises `NameError` before any delta is computed — an
evident slip (stale names after a parameter rename plus a missing import;
the docstrings and the rest of the bodies spell out the intended
computation).  The definitions below embed that intended computation: the
arithmetic the bodies write, with the stale names read as the parameters and
`convert_format` as the excluded collaborator (the identity for inputs
already in `center_yxhw`). -/

/-- A box in `center_yxhw` format: center coordinates, then height and width. -/
structure CenterBox where
  cy : ℝ
  cx : ℝ
  h : ℝ
  w : ℝ

/-- A regression target: `[dy, dx, dh, dw]`. -/
structure Delta where
  dy : ℝ
  dx : ℝ
  dh : ℝ
  dw : ℝ

/-- A variance vector of length 4 (the length-4 requirement of the source is
enforced by the type; other lengths raise a `ValueError` in the source). -/
structure Variance where
  vy : ℝ
  vx : ℝ
  vh : ℝ
  vw : ℝ

/-- `keras.backend.epsilon()`, the fuzz factor used to clamp box dimensions. -/
noncomputable def kerasEpsilon : ℝ := 1e-7

/-- The delta computation that `encode_box_to_deltas` (delta_encoding.py,
lines 22-61) spells out but, as staged, never reaches — every call raises
`NameError` at the `convert_format` lines first (see the section comment).
Anchors and boxes are taken already in `center_yxhw` format (the format
conversion is the excluded collaborator).  Both anchor and box dimensions
are clamped to `keras.backend.epsilon()` from below, and the resulting delta
is divided componentwise by the variance when one is given. -/
noncomputable def encodeBoxToDeltas (anchor box : CenterBox)
    (variance : Option Variance) : Delta :=
  let ah := max anchor.h kerasEpsilon
  let aw := max anchor.w kerasEpsilon
  let bh := max box.h kerasEpsilon
  let bw := max box.w kerasEpsilon
  let d : Delta :=
    ⟨(box.cy - anchor.cy) / ah, (box.cx - anchor.cx) / aw,
      Real.log (bh / ah), Real.log (bw / aw)⟩
  match variance with
  | none => d
  | some v => ⟨d.dy / v.vy, d.dx / v.vx, d.dh / v.vh, d.dw / v.vw⟩

/-- The single-level decoding that `decode_deltas_to_boxes`
(delta_encoding.py, lines 81-99) spells out but, as staged, never reaches —
`decode_single_level` hits the same undefined `convert_format` /
`anchor_format` names first.  Multiply by the variance when given, then
reconstruct the center and size from the (unclamped) anchor dimensions. -/
noncomputable def decodeDeltasToBoxes (anchor : CenterBox) (delta : Delta)
    (variance : Option Variance) : CenterBox :=
  let d : Delta :=
    match variance with
    | none => delta
    | some v => ⟨delta.dy * v.vy, delta.dx * v.vx, delta.dh * v.vh, delta.dw * v.vw⟩
  ⟨d.dy * anchor.h + anchor.cy, d.dx * anchor.w + anchor.cx,
    Real.exp d.dh * anchor.h, Real.exp d.dw * anchor.w⟩

/-! ## Definitions: single-level anchor generation
(`keras_cv/layers/object_detection/scale_based_anchor_generator.py`,
`_SingleAnchorGenerator.__call__`, lines 229-276) -/

/-- `tf.range(start, limit, delta)` over exact rationals (for a positive
step): `max 0 ⌈(limit - start) / delta⌉` evenly spaced values starting at
`start`. -/
def tfRange (start limit delta : ℚ) : List ℚ :=
  (List.range (if 0 < delta then (⌈(limit - start) / delta⌉).toNat else 0)).map
    (fun i : ℕ => start + (i : ℚ) * delta)

/-- TensorFlow broadcasting of two 1-D tensors into elementwise pairs: equal
lengths pair up positionally, a length-1 operand is repeated against the
other, and any other combination is a shape error (`none`). -/
def broadcast2 {α : Type u} {β : Type v} (xs : List α) (ys : List β) :
    Option (List (α × β)) :=
  if xs.length = ys.length then some (xs.zip ys)
  else
    match xs, ys with
    | [x], ys => some (ys.map fun y => (x, y))
    | xs, [y] => some (xs.map fun x => (x, y))
    | _, _ => none

/-- An anchor box in `yxyx` corner format, in absolute image coordinates. -/
structure AnchorBox where
  yMin : ℝ
  xMin : ℝ
  yMax : ℝ
  xMax : ℝ

/-- The per-cell anchor dimensions computed by `_SingleAnchorGenerator`
(lines 233-244): `anchor_sizes * scale` is divided by `sqrt(aspect_ratios)`
for heights and multiplied by it for widths, under 1-D broadcasting —
an elementwise pairing of `sizes` with `aspect_ratios`, not a cross
product. -/
noncomputable def anchorDims (scale : ℚ) (sizes aspectRatios : List ℚ) :
    Option (List (ℝ × ℝ)) :=
  (broadcast2 sizes aspectRatios).map
    (List.map fun p =>
      (((p.1 : ℚ) : ℝ) * (scale : ℝ) / Real.sqrt ((p.2 : ℚ) : ℝ),
       ((p.1 : ℚ) : ℝ) * (scale : ℝ) * Real.sqrt ((p.2 : ℚ) : ℝ)))

/-- The per-cell anchor dimension list that the specification's words
describe: one `(height, width)` pair for every `(size, aspect_ratio)` pair,
i.e. the full cross product.  Stated from the spec's words for comparison
with `anchorDims`, which embeds the source's elementwise broadcast. -/
noncomputable def crossProductAnchorDims (scale : ℚ)
    (sizes aspectRatios : List ℚ) : List (ℝ × ℝ) :=
  sizes.flatMap fun sz => aspectRatios.map fun ar =>
    (((sz : ℚ) : ℝ) * (scale : ℝ) / Real.sqrt ((ar : ℚ) : ℝ),
     ((sz : ℚ) : ℝ) * (scale : ℝ) * Real.sqrt ((ar : ℚ) : ℝ))

/-- The grid of cell centers (lines 246-256): `tf.range(0.5 * stride, dim,
stride)` along each axis, combined by `tf.meshgrid` into row-major `(cy, cx)`
pairs. -/
def gridCenters (stride height width : ℚ) : List (ℚ × ℚ) :=
  (tfRange (stride / 2) height stride).flatMap
    (fun cy => (tfRange (stride / 2) width stride).map fun cx => (cy, cx))

/-- Per-coordinate clipping (lines 269-273): when `clip_boxes` is set, each
coordinate is clamped into `[0, dimension]` by `maximum(minimum(v, dim), 0)`. -/
def clipCoord (clip : Bool) (dim : ℚ) (v : ℝ) : ℝ :=
  if clip then max (min v (dim : ℝ)) 0 else v

/-- One output anchor (lines 258-276): the corner box
`[cy - h/2, cx - w/2, cy + h/2, cx + w/2]`, clipped per coordinate when
requested (y coordinates against the height, x coordinates against the
width). -/
noncomputable def mkAnchor (clip : Bool) (height width : ℚ) (c : ℚ × ℚ)
    (hw : ℝ × ℝ) : AnchorBox :=
  ⟨clipCoord clip height ((c.1 : ℝ) - hw.1 / 2),
   clipCoord clip width ((c.2 : ℝ) - hw.2 / 2),
   clipCoord clip height ((c.1 : ℝ) + hw.1 / 2),
   clipCoord clip width ((c.2 : ℝ) + hw.2 / 2)⟩

/-- Embedding of `_SingleAnchorGenerator.__call__` (lines 229-276): the
reshape to `[H * W * K, 4]` lists anchors row-major over grid cells with the
per-cell anchor index innermost.  `none` models the broadcasting shape error
raised when `len(sizes)` and `len(aspect_ratios)` are incompatible. -/
noncomputable def singleAnchorGenerator (scale : ℚ) (sizes aspectRatios : List ℚ)
    (stride : ℚ) (clip : Bool) (height width : ℚ) : Option (List AnchorBox) :=
  (anchorDims scale sizes aspectRatios).map fun hws =>
    (gridCenters stride height width).flatMap fun c =>
      hws.map (mkAnchor clip height width c)

/-! ## Definitions: `AnchorGenerator.__init__` parameter handling
(scale_based_anchor_generator.py, lines 52-157) -/

/-- The `scales` constructor argument: a flat list or a dict of per-level
scalars. -/
inductive ScalesParam where
  | flat (values : List ℚ)
  | perLevel (entries : List (String × ℚ))

/-- A `sizes` / `aspect_ratios` / `strides` constructor argument: a flat list
(broadcast wholesale to every level) or a dict of per-level lists. -/
inductive LevelParam where
  | flat (values : List ℚ)
  | perLevel (entries : List (String × List ℚ))

/-- The configuration errors raised by the constructor (both are `ValueError`
in the source; the payload names what the message names). -/
inductive AGError where
  | keysMismatch (paramName : String)
  | sizesStridesMismatch (level : String)
  deriving DecidableEq

/-- The per-level parameters handed to one `_SingleAnchorGenerator`
(lines 76-84). -/
structure LevelConfig where
  scale : ℚ
  sizes : List ℚ
  aspectRatios : List ℚ
  strides : List ℚ
  clipBoxes : Bool
  deriving DecidableEq

/-- `AnchorGenerator._pack_parameter_to_dict` (lines 137-157): a list becomes
`{"level_0": v0, "level_1": v1, ...}` in input order; a dict is returned
unchanged. -/
def packScalesToDict (param : ScalesParam) : List (String × ℚ) :=
  match param with
  | .perLevel d => d
  | .flat l => l.enum.map fun p => ("level_" ++ toString p.1, p.2)

/-- `AnchorGenerator._broadcast_parameter_to_scales` (lines 114-135): a flat
list is copied, in its entirety, to every level of `scales`; then the key sets
must agree (the source compares the sorted key lists, which is the same check
as key-multiset permutation). -/
def broadcastParameterToScales (param : LevelParam) (paramName : String)
    (scales : List (String × ℚ)) : Except AGError (List (String × List ℚ)) :=
  match param with
  | .flat l =>
    let d := scales.map fun p => (p.1, l)
    if (d.map Prod.fst).isPerm (scales.map Prod.fst) then .ok d
    else .error (.keysMismatch paramName)
  | .perLevel d =>
    if (d.map Prod.fst).isPerm (scales.map Prod.fst) then .ok d
    else .error (.keysMismatch paramName)

/-- `AnchorGenerator._validate_sizes_and_strides` (lines 86-96): walk the
levels of `sizes` in order and fail on the first level whose `sizes` and
`strides` lists have different lengths, naming that level. -/
def validateSizesAndStrides :
    List (String × List ℚ) → List (String × List ℚ) → Except AGError Unit
  | [], _ => .ok ()
  | (lvl, sz) :: rest, strides =>
    if sz.length ≠ ((strides.lookup lvl).getD []).length then
      .error (.sizesStridesMismatch lvl)
    else validateSizesAndStrides rest strides

/-- Embedding of `AnchorGenerator.__init__` (lines 52-84), in source order:
pack `scales`, broadcast `sizes`, broadcast `strides`, validate the
sizes/strides lengths, broadcast `aspect_ratios`, then build one
`LevelConfig` per level of `scales` by dict lookup.  All of this happens at
construction time, before any generation call — a generator only exists for
an `.ok` result. -/
def anchorGeneratorInit (sizes : LevelParam) (scales : ScalesParam)
    (aspectRatios : LevelParam) (strides : LevelParam) (clipBoxes : Bool) :
    Except AGError (List (String × LevelConfig)) :=
  let scalesD := packScalesToDict scales
  match broadcastParameterToScales sizes "sizes" scalesD with
  | .error e => .error e
  | .ok sizesD =>
    match broadcastParameterToScales strides "strides" scalesD with
    | .error e => .error e
    | .ok stridesD =>
      match validateSizesAndStrides sizesD stridesD with
      | .error e => .error e
      | .ok _ =>
        match broadcastParameterToScales aspectRatios "aspect_ratios" scalesD with
        | .error e => .error e
        | .ok arsD =>
          .ok (scalesD.map fun p =>
            (p.1, ⟨p.2, (sizesD.lookup p.1).getD [], (arsD.lookup p.1).getD [],
              (stridesD.lookup p.1).getD [], clipBoxes⟩))

end KerasCV

namespace KerasCV

/-! ## Definitions: recall metric (`keras_cv/metrics/coco/recall.py` and
`benchmarks/recall/in_graph_recall.py`) -/

/-- A bounding box in the metric's canonical `xyxy` corner format. -/
structure Box4 where
  left : ℚ
  top : ℚ
  right : ℚ
  bottom : ℚ
  deriving DecidableEq

/-- One predicted box: coordinates, class id and confidence (classes and
class ids are compared as floats in the source). -/
structure DetBox where
  box : Box4
  cls : ℚ
  confidence : ℚ
  deriving DecidableEq

/-- One ground-truth box: coordinates and class id; `-1` is the padding
sentinel of dense ragged batches. -/
structure GtBox where
  box : Box4
  cls : ℚ
  deriving DecidableEq

def boxArea (b : Box4) : ℚ := (b.right - b.left) * (b.bottom - b.top)

/-- Modelled from the spec: `keras_cv.bounding_box.iou.compute_iou` is not in
the provided sources; §4.3 defines it as intersection area over union area
for each pair, with degenerate (zero-area) pairs yielding 0 — the zero-union
case is guarded like `divide_no_nan`. -/
def computeIou (a b : Box4) : ℚ :=
  let interW := max 0 (min a.right b.right - max a.left b.left)
  let interH := max 0 (min a.bottom b.bottom - max a.top b.top)
  let inter := interW * interH
  let uni := boxArea a + boxArea b - inter
  if uni ≤ 0 then 0 else inter / uni

/-- `tf.math.divide_no_nan`: division that returns 0 when the denominator is
0. -/
def divideNoNan (a b : ℚ) : ℚ := if b = 0 then 0 else a / b

/-- The descending-confidence order on predictions. -/
def confidenceGe (a b : DetBox) : Prop := b.confidence ≤ a.confidence

instance : DecidableRel confidenceGe := fun a b =>
  inferInstanceAs (Decidable (b.confidence ≤ a.confidence))

instance : IsTotal DetBox confidenceGe :=
  ⟨fun a b => le_total b.confidence a.confidence⟩

instance : IsTrans DetBox confidenceGe := ⟨fun _ _ _ h1 h2 => le_trans h2 h1⟩

/-- Modelled from the spec: `utils.order_by_confidence` is not in the
provided sources; §4.4 requires sorting an image's predictions by descending
confidence (a stable sort). -/
def orderByConfidence (dets : List DetBox) : List DetBox :=
  dets.insertionSort confidenceGe

/-- Modelled from the spec (§4.3, the greedy matcher): the not-yet-matched
ground-truth row of maximum IoU for prediction column `j` (first such row on
ties), with its IoU value. -/
def bestUnmatchedRow (ious : List (List ℚ)) (used : List ℕ) (j : ℕ) :
    Option (ℕ × ℚ) :=
  ((List.range ious.length).filter fun i => !(used.contains i)).foldl
    (fun best i =>
      let v := (ious.getD i []).getD j 0
      match best with
      | none => some (i, v)
      | some (bi, bv) => if bv < v then some (i, v) else some (bi, bv))
    none

/-- Modelled from the spec (§4.3): scan the prediction columns in order; a
prediction takes the best unmatched row when its IoU reaches the threshold
and is otherwise assigned the sentinel `-1`; a matched row is excluded from
consideration by later predictions. -/
def matchBoxesGo (ious : List (List ℚ)) (threshold : ℚ) :
    List ℕ → List ℕ → List ℤ
  | [], _ => []
  | j :: rest, used =>
    match bestUnmatchedRow ious used j with
    | some (bi, bv) =>
      if threshold ≤ bv then
        (bi : ℤ) :: matchBoxesGo ious threshold rest (bi :: used)
      else -1 :: matchBoxesGo ious threshold rest used
    | none => -1 :: matchBoxesGo ious threshold rest used

/-- `utils.match_boxes` — modelled from the spec (§4.3).  Rows of `ious` are
ground truths, columns are predictions; `numPreds` is the column count of the
matrix. -/
def matchBoxes (ious : List (List ℚ)) (numPreds : ℕ) (threshold : ℚ) : List ℤ :=
  matchBoxesGo ious threshold (List.range numPreds) []

/-- The constructor parameters of `_BoxRecall` / `InGraphBoxRecall`. -/
structure RecallConfig where
  classIds : List ℚ
  iouThresholds : List ℚ
  areaRange : Option (ℚ × ℚ)
  maxDetections : ℕ

/-- The accumulator weights: `true_positives` indexed by (threshold index,
category index) and `ground_truth_boxes` indexed by category index. -/
@[ext]
structure RecallState where
  truePositives : ℕ → ℕ → ℕ
  groundTruthBoxes : ℕ → ℕ

/-- Fresh accumulators: both weights are zero-initialized (recall.py lines
104-115). -/
def initialRecallState : RecallState := ⟨fun _ _ => 0, fun _ => 0⟩

/-- `reset_state` (recall.py lines 117-119): assign zeros to both weights. -/
def resetRecallState (_st : RecallState) : RecallState := initialRecallState

/-- `tf.tensor_scatter_nd_add` on a rank-1 accumulator at one index. -/
def scatterAdd1 (f : ℕ → ℕ) (i c : ℕ) : ℕ → ℕ :=
  fun j => if j = i then f j + c else f j

/-- `tf.tensor_scatter_nd_add` on a rank-2 accumulator at one index pair. -/
def scatterAdd2 (f : ℕ → ℕ → ℕ) (t k c : ℕ) : ℕ → ℕ → ℕ :=
  fun t2 k2 => if t2 = t ∧ k2 = k then f t2 k2 + c else f t2 k2

/-- Modelled from the spec: `utils.filter_boxes_by_area_range` is not in the
provided sources; it keeps the boxes whose area lies in the configured
range. -/
def gtAreaFilter (cfg : RecallConfig) (gts : List GtBox) : List GtBox :=
  match cfg.areaRange with
  | none => gts
  | some r => gts.filter fun g => decide (r.1 ≤ boxArea g.box ∧ boxArea g.box ≤ r.2)

def detAreaFilter (cfg : RecallConfig) (dets : List DetBox) : List DetBox :=
  match cfg.areaRange with
  | none => dets
  | some r => dets.filter fun d => decide (r.1 ≤ boxArea d.box ∧ boxArea d.box ≤ r.2)

/-- Modelled from the spec: `utils.filter_boxes` (recall.py) and
`utils.select_boxes_of_class` (in_graph_recall.py) keep exactly the boxes
whose class equals the requested category. -/
def gtForCategory (gts : List GtBox) (category : ℚ) : List GtBox :=
  gts.filter fun g => decide (g.cls = category)

def detForCategory (dets : List DetBox) (category : ℚ) : List DetBox :=
  dets.filter fun d => decide (d.cls = category)

/-- Category-filtered detections, truncated to `max_detections` when there
are more (recall.py lines 196-209). -/
def detectionsForCategory (cfg : RecallConfig) (dets : List DetBox)
    (category : ℚ) : List DetBox :=
  let filtered := detForCategory dets category
  if cfg.maxDetections < filtered.length then filtered.take cfg.maxDetections
  else filtered

/-- The number of predictions matched at one threshold:
`reduce_sum(cast(pred_matches != -1, int32))` (recall.py lines 221-229). -/
def truePositiveCount (gts : List GtBox) (dets : List DetBox)
    (threshold : ℚ) : ℕ :=
  let ious := gts.map fun g => dets.map fun d => computeIou g.box d.box
  ((matchBoxes ious dets.length threshold).filter fun m => decide (m ≠ -1)).length

/-- The body of the category loop of `update_state` (recall.py lines
193-239): the threshold loop scatter-adds each threshold's true-positive
count at `(t_i, k_i)`, and the ground-truth count is scatter-added at `k_i`
once, after the threshold loop. -/
def categoryStep (cfg : RecallConfig) (gtImg : List GtBox)
    (predImg : List DetBox) (acc : RecallState) (ki : ℕ) : RecallState :=
  let category := cfg.classIds.getD ki 0
  let detections := detectionsForCategory cfg predImg category
  let groundTruths := gtForCategory gtImg category
  let acc1 := (List.range cfg.iouThresholds.length).foldl
    (fun a ti => RecallState.mk
      (scatterAdd2 a.truePositives ti ki
        (truePositiveCount groundTruths detections (cfg.iouThresholds.getD ti 0)))
      a.groundTruthBoxes)
    acc
  RecallState.mk acc1.truePositives
    (scatterAdd1 acc1.groundTruthBoxes ki groundTruths.length)

/-- The body of the image loop of `update_state` (recall.py lines 179-239):
select the image, order its predictions by confidence, apply the optional
area filter, then run the category loop. -/
def imageStep (cfg : RecallConfig) (yTrue : List (List GtBox))
    (yPred : List (List DetBox)) (acc : RecallState) (img : ℕ) : RecallState :=
  let gtImg := gtAreaFilter cfg (yTrue.getD img [])
  let predImg := detAreaFilter cfg (orderByConfidence (yPred.getD img []))
  (List.range cfg.classIds.length).foldl (categoryStep cfg gtImg predImg) acc

/-- The update tensors accumulated by one `update_state` call before the
final `assign_add` (recall.py lines 176-239): both start at zero and are
filled by the image loop over the batch. -/
def updateCounts (cfg : RecallConfig) (yTrue : List (List GtBox))
    (yPred : List (List DetBox)) : RecallState :=
  (List.range yTrue.length).foldl (imageStep cfg yTrue yPred) initialRecallState

/-- The final `assign_add` of `update_state` (recall.py lines 241-242). -/
def addStates (st upd : RecallState) : RecallState :=
  ⟨fun t k => st.truePositives t k + upd.truePositives t k,
   fun k => st.groundTruthBoxes k + upd.groundTruthBoxes k⟩

/-- The errors an `update_state` call can raise before touching the
accumulators: the intended input-validation rejection of unbatched inputs,
and the `TypeError` that `tf.shape` raises when handed the bounding-box
dict itself (recall.py line 168). -/
inductive RecallError where
  | validationError
  | typeError
  deriving DecidableEq

/-- A boxes input together with the rank of its `"boxes"` tensor: the batched
(rank-3) case carries one list of boxes per image; any other rank means the
input is not a batch. -/
structure BoxTensorInput (Image : Type) where
  boxesRank : ℕ
  batch : List Image

/-- Embedding of `_BoxRecall.update_state` (recall.py lines 122-242) as
staged: the rank check raises before anything else touches the accumulators;
a call that passes it then executes `num_images = tf.shape(y_true)[0]`
(line 168) on the bounding-box *dict* — `tf.shape` cannot convert a dict to
a tensor and raises `TypeError` — so this variant never reaches its
accumulation loops (whose text below line 168 is the same as the in-graph
variant's).  Either way no accumulator is mutated: the per-call updates
would only be applied by the final `assign_add` (lines 241-242). -/
def boxRecallUpdateState (_cfg : RecallConfig) (_st : RecallState)
    (yTrue : BoxTensorInput (List GtBox))
    (yPred : BoxTensorInput (List DetBox)) : Except RecallError RecallState :=
  if yTrue.boxesRank ≠ 3 ∨ yPred.boxesRank ≠ 3 then .error .validationError
  else .error .typeError

/-- Embedding of `InGraphBoxRecall.update_state` (in_graph_recall.py lines
79-190), the working twin of `_BoxRecall.update_state`: the same rank check,
but the batch size is read from `tf.shape(y_true["classes"])[0]` (line 121),
so the call proceeds through the image/category/threshold loops and applies
the accumulated updates by `assign_add` at the very end. -/
def inGraphUpdateState (cfg : RecallConfig) (st : RecallState)
    (yTrue : BoxTensorInput (List GtBox))
    (yPred : BoxTensorInput (List DetBox)) : Except RecallError RecallState :=
  if yTrue.boxesRank ≠ 3 ∨ yPred.boxesRank ≠ 3 then .error .validationError
  else .ok (addStates st (updateCounts cfg yTrue.batch yPred.batch))

/-- The ground-truth boxes of one image contributing to category index `k`:
the area filter runs first, then the category filter; the count does not
depend on the IoU thresholds. -/
def gtContribution (cfg : RecallConfig) (gtImg : List GtBox) (k : ℕ) : ℕ :=
  (gtForCategory (gtAreaFilter cfg gtImg) (cfg.classIds.getD k 0)).length

/-- The true positives of one image contributing to the `(t, k)` cell. -/
def tpContribution (cfg : RecallConfig) (gtImg : List GtBox)
    (predImg : List DetBox) (t k : ℕ) : ℕ :=
  truePositiveCount
    (gtForCategory (gtAreaFilter cfg gtImg) (cfg.classIds.getD k 0))
    (detectionsForCategory cfg (detAreaFilter cfg (orderByConfidence predImg))
      (cfg.classIds.getD k 0))
    (cfg.iouThresholds.getD t 0)

/-- The number of categories with at least one accumulated ground-truth box
(recall.py lines 246-250). -/
def nPresentCategories (cfg : RecallConfig) (st : RecallState) : ℕ :=
  ((Finset.range cfg.classIds.length).filter
    fun k => st.groundTruthBoxes k ≠ 0).card

/-- Embedding of `_BoxRecall.result` (recall.py lines 244-264, identical in
in_graph_recall.py lines 192-210): zero when no category is present,
otherwise the mean over thresholds of the `divide_no_nan` recalls summed over
all categories and divided by the number of present categories. -/
def recallResult (cfg : RecallConfig) (st : RecallState) : ℚ :=
  if nPresentCategories cfg st = 0 then 0
  else
    (∑ t ∈ Finset.range cfg.iouThresholds.length,
        (∑ k ∈ Finset.range cfg.classIds.length,
          divideNoNan (st.truePositives t k) (st.groundTruthBoxes k))
          / nPresentCategories cfg st)
      / cfg.iouThresholds.length

/-- The claim's formula for `result()`, written from the spec's words: recall
per present category is a plain division `tp / gt`, categories without ground
truth are excluded from both the sum and the averaging denominator, and the
scalar is the mean over thresholds; 0 when no category has ground truth. -/
def recallResultSpec (cfg : RecallConfig) (st : RecallState) : ℚ :=
  let present := (Finset.range cfg.classIds.length).filter
    fun k => st.groundTruthBoxes k ≠ 0
  if present.card = 0 then 0
  else
    (∑ t ∈ Finset.range cfg.iouThresholds.length,
        (∑ k ∈ present,
          (st.truePositives t k : ℚ) / (st.groundTruthBoxes k : ℚ))
          / present.card)
      / cfg.iouThresholds.length

/-! ## Definitions: `MeanBoxCountDelta`
(`keras_cv/metrics/object_detection/mean_box_count_delta.py`) -/

/-- TensorFlow float division: `none` stands for the non-finite outcomes
(`0/0` is NaN, `x/0` with `x ≠ 0` is an infinity), `some` for an ordinary
finite quotient. -/
def tfDiv (a b : ℚ) : Option ℚ := if b = 0 then none else some (a / b)

structure MeanBoxCountDeltaState where
  deltaSum : ℚ
  samples : ℚ
  deriving DecidableEq

/-- Fresh metric state: both weights are zero-initialized
(mean_box_count_delta.py lines 54-65); `reset_state` (lines 67-69) restores
it. -/
def initialMeanBoxCountDelta : MeanBoxCountDeltaState := ⟨0, 0⟩

/-- Embedding of `MeanBoxCountDelta.update_state` (mean_box_count_delta.py
lines 71-96): per image, count the classes that are not the `-1` padding
sentinel on both sides, accumulate the absolute count difference, and count
the batch size as samples. -/
def meanBoxCountDeltaUpdate (st : MeanBoxCountDeltaState)
    (yTrueClasses yPredClasses : List (List ℚ)) : MeanBoxCountDeltaState :=
  let gtCounts := yTrueClasses.map fun img =>
    (img.filter fun c => decide (c ≠ -1)).length
  let predCounts := yPredClasses.map fun img =>
    (img.filter fun c => decide (c ≠ -1)).length
  let deltas := (gtCounts.zip predCounts).map fun p =>
    ((p.1 : ℤ) - (p.2 : ℤ)).natAbs
  ⟨st.deltaSum + (deltas.map fun d => (d : ℚ)).sum,
   st.samples + yPredClasses.length⟩

/-- Embedding of `MeanBoxCountDelta.result` (mean_box_count_delta.py lines
98-99): a plain, unguarded float division `delta_sum / samples`. -/
def MeanBoxCountDeltaState.result (st : MeanBoxCountDeltaState) : Option ℚ :=
  tfDiv st.deltaSum st.samples

end KerasCV

namespace KerasCV

universe u v

/-! ## Helper lemmas -/

theorem length_flatMap_const {α : Type u} {β : Type v} (l : List α)
    (f : α → List β) (n : ℕ) (h : ∀ a ∈ l, (f a).length = n) :
    (l.flatMap f).length = l.length * n := by
  induction l with
  | nil => simp
  | cons a l ih =>
    rw [List.flatMap_cons, List.length_append, h a (List.mem_cons_self a l),
      ih (fun b hb => h b (List.mem_cons_of_mem a hb)), List.length_cons]
    ring

theorem flatMap_getElem_const {α : Type u} {β : Type v} (l : List α)
    (f : α → List β) (n : ℕ) (h : ∀ a ∈ l, (f a).length = n) (i k : ℕ)
    (hi : i < l.length) (hk : k < n) :
    (l.flatMap f)[i * n + k]? = (f (l.get ⟨i, hi⟩))[k]? := by
  induction l generalizing i with
  | nil => simp at hi
  | cons a l ih =>
    cases i with
    | zero =>
      have hfa : (f a).length = n := h a (List.mem_cons_self a l)
      simp only [List.flatMap_cons, List.get]
      rw [Nat.zero_mul, Nat.zero_add, List.getElem?_append,
        if_pos (by rw [hfa]; exact hk)]
    | succ i =>
      have hfa : (f a).length = n := h a (List.mem_cons_self a l)
      have hle : (f a).length ≤ (i + 1) * n + k := by
        rw [hfa, Nat.succ_mul]
        omega
      simp only [List.flatMap_cons, List.get]
      rw [List.getElem?_append_right hle, hfa]
      have harith : (i + 1) * n + k - n = i * n + k := by
        rw [Nat.succ_mul]
        omega
      rw [harith]
      exact ih (fun b hb => h b (List.mem_cons_of_mem a hb)) i
        (Nat.lt_of_succ_lt_succ (by simpa using hi))

theorem tfRange_length (s l d : ℚ) :
    (tfRange s l d).length = if 0 < d then (⌈(l - s) / d⌉).toNat else 0 := by
  simp [tfRange]

theorem tfRange_getElem (s l d : ℚ) (i : ℕ) (hi : i < (tfRange s l d).length) :
    (tfRange s l d)[i]? = some (s + i * d) := by
  simp only [tfRange, List.length_map, List.length_range] at hi ⊢
  rw [List.getElem?_map, List.getElem?_range hi]
  rfl

theorem gridCenters_length (stride height width : ℚ) :
    (gridCenters stride height width).length =
      (tfRange (stride / 2) height stride).length *
        (tfRange (stride / 2) width stride).length := by
  unfold gridCenters
  rw [length_flatMap_const _ _ (tfRange (stride / 2) width stride).length]
  intro a _
  simp

/-- `anchorDims` evaluated on a concrete elementwise configuration. -/
theorem anchorDims_example :
    anchorDims 1 [1, 2] [1, 1] = some [(1, 1), (2, 2)] := by
  simp [anchorDims, broadcast2, Real.sqrt_one]

theorem tfRange_two_four_four : tfRange (4 / 2) 4 4 = [2] := by
  have hn : ⌈((4:ℚ) - 4 / 2) / 4⌉ = 1 := by
    rw [Int.ceil_eq_iff]; norm_num
  rw [tfRange, if_pos (by norm_num : (0:ℚ) < 4), hn]
  norm_num [List.range_succ]

theorem gridCenters_four : gridCenters 4 4 4 = [(2, 2)] := by
  rw [gridCenters, tfRange_two_four_four]
  norm_num

/-- The generator evaluated on a concrete one-cell configuration. -/
theorem single_anchor_generator_small :
    singleAnchorGenerator 1 [1, 2] [1, 1] 4 false 4 4 =
      some [⟨3/2, 3/2, 5/2, 5/2⟩, ⟨1, 1, 3, 3⟩] := by
  rw [singleAnchorGenerator, anchorDims_example, Option.map_some',
    gridCenters_four]
  norm_num [mkAnchor, clipCoord]

/-- The same one-cell configuration with clipping enabled (all coordinates
already lie inside `[0, 4]`, so the clamp is the identity here). -/
theorem single_anchor_generator_small_clip :
    singleAnchorGenerator 1 [1, 2] [1, 1] 4 true 4 4 =
      some [⟨3/2, 3/2, 5/2, 5/2⟩, ⟨1, 1, 3, 3⟩] := by
  rw [singleAnchorGenerator, anchorDims_example, Option.map_some',
    gridCenters_four]
  norm_num [mkAnchor, clipCoord]

theorem lookup_map_const {α : Type u} (m : List (String × ℚ)) (c : α)
    (k : String) (hk : k ∈ m.map Prod.fst) :
    ((m.map fun p => (p.1, c)).lookup k) = some c := by
  induction m with
  | nil => simp at hk
  | cons p rest ih =>
    simp only [List.map_cons, List.lookup]
    by_cases h : k = p.1
    · simp [h]
    · have hb : (k == p.1) = false := beq_eq_false_iff_ne.mpr h
      rw [hb]
      apply ih
      simp only [List.map_cons, List.mem_cons] at hk
      rcases hk with h1 | h2
      · exact absurd h1 h
      · exact h2

theorem validateSizesAndStrides_ok (entries strides : List (String × List ℚ))
    (h : ∀ p ∈ entries, ((strides.lookup p.1).getD []).length = p.2.length) :
    validateSizesAndStrides entries strides = .ok () := by
  induction entries with
  | nil => rfl
  | cons p rest ih =>
    obtain ⟨l0, s0⟩ := p
    have h0 := h (l0, s0) (List.mem_cons_self _ _)
    simp only [validateSizesAndStrides, if_neg (not_ne_iff.mpr h0.symm)]
    exact ih fun q hq => h q (List.mem_cons_of_mem _ hq)

theorem validateSizesAndStrides_error (entries strides : List (String × List ℚ))
    (lvl : String) (sz : List ℚ) (hmem : (lvl, sz) ∈ entries)
    (hmm : sz.length ≠ ((strides.lookup lvl).getD []).length) :
    ∃ lvl2 sz2, validateSizesAndStrides entries strides =
        .error (.sizesStridesMismatch lvl2) ∧ (lvl2, sz2) ∈ entries ∧
      sz2.length ≠ ((strides.lookup lvl2).getD []).length := by
  induction entries with
  | nil => simp at hmem
  | cons head rest ih =>
    obtain ⟨l0, s0⟩ := head
    by_cases h0 : s0.length ≠ ((strides.lookup l0).getD []).length
    · refine ⟨l0, s0, ?_, List.mem_cons_self _ _, h0⟩
      simp [validateSizesAndStrides, h0]
    · rcases List.mem_cons.mp hmem with heq | hrest
      · exfalso
        injection heq with h1 h2
        subst h1
        subst h2
        exact h0 hmm
      · obtain ⟨lvl2, sz2, hval, hm2, hne2⟩ := ih hrest
        refine ⟨lvl2, sz2, ?_, List.mem_cons_of_mem _ hm2, hne2⟩
        simp only [validateSizesAndStrides, if_neg h0]
        exact hval

theorem broadcast_flat (l : List ℚ) (name : String)
    (scalesD : List (String × ℚ)) :
    broadcastParameterToScales (.flat l) name scalesD =
      .ok (scalesD.map fun p => (p.1, l)) := by
  simp only [broadcastParameterToScales, List.map_map]
  have he : (Prod.fst ∘ fun p : String × ℚ => (p.1, l)) = Prod.fst := by
    funext p
    rfl
  rw [he, if_pos (List.isPerm_iff.mpr (List.Perm.refl _))]

end KerasCV

namespace KerasCV

theorem tpFold_groundTruth (c : ℕ → ℕ) (ki T : ℕ) (acc : RecallState) :
    ((List.range T).foldl (fun a ti => RecallState.mk
      (scatterAdd2 a.truePositives ti ki (c ti)) a.groundTruthBoxes) acc
      ).groundTruthBoxes = acc.groundTruthBoxes := by
  induction T with
  | zero => rfl
  | succ T ih =>
    rw [List.range_succ, List.foldl_append]
    simp only [List.foldl_cons, List.foldl_nil]
    exact ih

theorem tpFold_truePositives (c : ℕ → ℕ) (ki T : ℕ) (acc : RecallState)
    (t k : ℕ) :
    ((List.range T).foldl (fun a ti => RecallState.mk
      (scatterAdd2 a.truePositives ti ki (c ti)) a.groundTruthBoxes) acc
      ).truePositives t k
      = acc.truePositives t k + if t < T ∧ k = ki then c t else 0 := by
  induction T with
  | zero => simp
  | succ T ih =>
    rw [List.range_succ, List.foldl_append]
    simp only [List.foldl_cons, List.foldl_nil, scatterAdd2]
    rw [ih]
    by_cases hk : k = ki
    · subst hk
      by_cases ht2 : t = T
      · subst ht2
        rw [if_pos ⟨rfl, rfl⟩, if_neg (by omega : ¬(t < t ∧ k = k)),
          if_pos ⟨Nat.lt_succ_self t, rfl⟩]
        omega
      · rw [if_neg (fun h => ht2 h.1)]
        by_cases ht3 : t < T
        · rw [if_pos ⟨ht3, rfl⟩, if_pos ⟨Nat.lt_succ_of_lt ht3, rfl⟩]
        · rw [if_neg (fun h => ht3 h.1), if_neg (fun h => absurd h.1 (by omega))]
    · rw [if_neg (fun h => hk h.2), if_neg (fun h => hk h.2),
        if_neg (fun h => hk h.2)]

theorem categoryFold_gt (cfg : RecallConfig) (gtImg : List GtBox)
    (predImg : List DetBox) (K : ℕ) (acc : RecallState) (k : ℕ) :
    ((List.range K).foldl (categoryStep cfg gtImg predImg) acc
      ).groundTruthBoxes k
      = acc.groundTruthBoxes k +
        if k < K then (gtForCategory gtImg (cfg.classIds.getD k 0)).length
        else 0 := by
  induction K with
  | zero => simp
  | succ K ih =>
    rw [List.range_succ, List.foldl_append]
    simp only [List.foldl_cons, List.foldl_nil]
    simp only [categoryStep, tpFold_groundTruth, scatterAdd1]
    rw [ih]
    by_cases hk : k = K
    · subst hk
      rw [if_pos rfl, if_neg (by omega : ¬k < k), if_pos (Nat.lt_succ_self k)]
      omega
    · rw [if_neg hk]
      by_cases hk2 : k < K
      · rw [if_pos hk2, if_pos (Nat.lt_succ_of_lt hk2)]
      · rw [if_neg hk2, if_neg (by omega : ¬k < K + 1)]

theorem categoryFold_tp (cfg : RecallConfig) (gtImg : List GtBox)
    (predImg : List DetBox) (K : ℕ) (acc : RecallState) (t k : ℕ) :
    ((List.range K).foldl (categoryStep cfg gtImg predImg) acc
      ).truePositives t k
      = acc.truePositives t k +
        if t < cfg.iouThresholds.length ∧ k < K then
          truePositiveCount (gtForCategory gtImg (cfg.classIds.getD k 0))
            (detectionsForCategory cfg predImg (cfg.classIds.getD k 0))
            (cfg.iouThresholds.getD t 0)
        else 0 := by
  induction K with
  | zero => simp
  | succ K ih =>
    rw [List.range_succ, List.foldl_append]
    simp only [List.foldl_cons, List.foldl_nil]
    simp only [categoryStep]
    rw [tpFold_truePositives, ih]
    by_cases hk : k = K
    · subst hk
      rw [if_neg (by omega : ¬(t < cfg.iouThresholds.length ∧ k < k))]
      by_cases ht : t < cfg.iouThresholds.length
      · rw [if_pos ⟨ht, rfl⟩, if_pos ⟨ht, Nat.lt_succ_self k⟩]
        omega
      · rw [if_neg (fun h => ht h.1), if_neg (fun h => ht h.1)]
    · rw [if_neg (show ¬(t < cfg.iouThresholds.length ∧ k = K) from
        fun h => hk h.2)]
      by_cases hcond : t < cfg.iouThresholds.length ∧ k < K
      · rw [if_pos hcond, if_pos ⟨hcond.1, Nat.lt_succ_of_lt hcond.2⟩]
        omega
      · rw [if_neg hcond,
          if_neg (show ¬(t < cfg.iouThresholds.length ∧ k < K + 1) from
            fun h => hcond ⟨h.1, by omega⟩)]

theorem imageStep_gt (cfg : RecallConfig) (yTrue : List (List GtBox))
    (yPred : List (List DetBox)) (acc : RecallState) (img k : ℕ) :
    (imageStep cfg yTrue yPred acc img).groundTruthBoxes k
      = acc.groundTruthBoxes k +
        if k < cfg.classIds.length then gtContribution cfg (yTrue.getD img []) k
        else 0 := by
  unfold imageStep
  rw [categoryFold_gt]
  rfl

theorem imageStep_tp (cfg : RecallConfig) (yTrue : List (List GtBox))
    (yPred : List (List DetBox)) (acc : RecallState) (img t k : ℕ) :
    (imageStep cfg yTrue yPred acc img).truePositives t k
      = acc.truePositives t k +
        if t < cfg.iouThresholds.length ∧ k < cfg.classIds.length then
          tpContribution cfg (yTrue.getD img []) (yPred.getD img []) t k
        else 0 := by
  unfold imageStep
  rw [categoryFold_tp]
  rfl

theorem imageFold_gt (cfg : RecallConfig) (yTrue : List (List GtBox))
    (yPred : List (List DetBox)) (N : ℕ) (acc : RecallState) (k : ℕ)
    (hk : k < cfg.classIds.length) :
    ((List.range N).foldl (imageStep cfg yTrue yPred) acc).groundTruthBoxes k
      = acc.groundTruthBoxes k +
        ((List.range N).map
          (fun i => gtContribution cfg (yTrue.getD i []) k)).sum := by
  induction N with
  | zero => simp
  | succ N ih =>
    rw [List.range_succ, List.foldl_append, List.map_append, List.sum_append]
    simp only [List.foldl_cons, List.foldl_nil, List.map_cons, List.map_nil,
      List.sum_cons, List.sum_nil]
    rw [imageStep_gt, ih, if_pos hk]
    omega

theorem imageFold_tp (cfg : RecallConfig) (yTrue : List (List GtBox))
    (yPred : List (List DetBox)) (N : ℕ) (acc : RecallState) (t k : ℕ)
    (ht : t < cfg.iouThresholds.length) (hk : k < cfg.classIds.length) :
    ((List.range N).foldl (imageStep cfg yTrue yPred) acc).truePositives t k
      = acc.truePositives t k +
        ((List.range N).map
          (fun i => tpContribution cfg (yTrue.getD i []) (yPred.getD i []) t k)
          ).sum := by
  induction N with
  | zero => simp
  | succ N ih =>
    rw [List.range_succ, List.foldl_append, List.map_append, List.sum_append]
    simp only [List.foldl_cons, List.foldl_nil, List.map_cons, List.map_nil,
      List.sum_cons, List.sum_nil]
    rw [imageStep_tp, ih, if_pos ⟨ht, hk⟩]
    omega

end KerasCV

namespace KerasCV

/-! ## Claim C1: encode/decode round trip

The staged `delta_encoding.py` raises `NameError` on every call (see the
definition section), so no call ever computes a delta, let alone round
trips: the claim describes the evident intent of the slipped code, settled
here against the slip-repaired arithmetic the bodies spell out. -/

/-- Supporting note for claim C1 (not about the staged code, which raises
`NameError` before computing anything): even the intended arithmetic does
not round-trip for *any* variance.  The encode step divides the deltas by
the variance and the decode step multiplies them back, so a zero component
destroys the offset information (in float arithmetic the division produces
an infinity and the subsequent `inf * 0` produces NaN; in this real-number
embedding, where division by zero is zero, the decoded center collapses
onto the anchor center — the round trip fails under either convention).
At the concrete input below — whose anchor and box dimensions all exceed
the epsilon floor — the decoded center-y differs from the original box's
center-y by 1, violating the `1e-4` tolerance.  This is why
`delta_codec_roundtrip` assumes every variance component nonzero. -/
theorem delta_codec_variance_zero_note :
    kerasEpsilon < (1:ℝ) ∧
    ¬ |(decodeDeltasToBoxes ⟨0,0,1,1⟩
        (encodeBoxToDeltas ⟨0,0,1,1⟩ ⟨1,0,1,1⟩ (some ⟨0,0,0,0⟩))
        (some ⟨0,0,0,0⟩)).cy - (CenterBox.mk 1 0 1 1).cy| ≤ 1e-4 := by
  constructor
  · norm_num [kerasEpsilon]
  · have hmax : max (1:ℝ) kerasEpsilon = 1 :=
      max_eq_left (by norm_num [kerasEpsilon])
    simp only [encodeBoxToDeltas, decodeDeltasToBoxes, hmax]
    norm_num

/-- Claim C1 (code bug): the staged `encode_box_to_deltas` and
`decode_deltas_to_boxes` raise `NameError` on every call — `convert_format`
is never imported and their bodies reference `anchor_format` / `box_format`
though the parameters are `anchor_box_format` / `bounding_box_format`
(delta_encoding.py lines 37-46 and 82-98) — so the round trip the claim
describes never executes.  The claim is the evident intent of the slipped
code: for the arithmetic the bodies spell out (embedded in
`encodeBoxToDeltas` / `decodeDeltasToBoxes` with the stale names repaired),
whenever the anchor and box widths and heights exceed the epsilon floor
`keras.backend.epsilon()` and the variance vector of length 4 has all
components nonzero (or there is no variance), decoding the result of
encoding the box against the anchor returns the original box — exactly, in
this real-number model, hence in particular to the claimed `1e-4`
tolerance (`delta_codec_variance_zero_note` shows the nonzero-variance
restriction is needed even of the intent). -/
theorem delta_codec_roundtrip (a b : CenterBox) (vOpt : Option Variance)
    (hah : kerasEpsilon < a.h) (haw : kerasEpsilon < a.w)
    (hbh : kerasEpsilon < b.h) (hbw : kerasEpsilon < b.w)
    (hv : ∀ v, vOpt = some v → v.vy ≠ 0 ∧ v.vx ≠ 0 ∧ v.vh ≠ 0 ∧ v.vw ≠ 0) :
    decodeDeltasToBoxes a (encodeBoxToDeltas a b vOpt) vOpt = b := by
  have heps : (0:ℝ) < kerasEpsilon := by norm_num [kerasEpsilon]
  have hah0 : (0:ℝ) < a.h := heps.trans hah
  have haw0 : (0:ℝ) < a.w := heps.trans haw
  have hbh0 : (0:ℝ) < b.h := heps.trans hbh
  have hbw0 : (0:ℝ) < b.w := heps.trans hbw
  have e1 : max a.h kerasEpsilon = a.h := max_eq_left hah.le
  have e2 : max a.w kerasEpsilon = a.w := max_eq_left haw.le
  have e3 : max b.h kerasEpsilon = b.h := max_eq_left hbh.le
  have e4 : max b.w kerasEpsilon = b.w := max_eq_left hbw.le
  cases vOpt with
  | none =>
    simp only [encodeBoxToDeltas, decodeDeltasToBoxes, e1, e2, e3, e4]
    have hh : Real.exp (Real.log (b.h / a.h)) = b.h / a.h :=
      Real.exp_log (by positivity)
    have hw : Real.exp (Real.log (b.w / a.w)) = b.w / a.w :=
      Real.exp_log (by positivity)
    rw [hh, hw]
    obtain ⟨bcy, bcx, bh, bw⟩ := b
    congr 1 <;> field_simp
  | some v =>
    obtain ⟨h1, h2, h3, h4⟩ := hv v rfl
    simp only [encodeBoxToDeltas, decodeDeltasToBoxes, e1, e2, e3, e4]
    rw [div_mul_cancel₀ _ h1, div_mul_cancel₀ _ h2, div_mul_cancel₀ _ h3,
      div_mul_cancel₀ _ h4]
    have hh : Real.exp (Real.log (b.h / a.h)) = b.h / a.h :=
      Real.exp_log (by positivity)
    have hw : Real.exp (Real.log (b.w / a.w)) = b.w / a.w :=
      Real.exp_log (by positivity)
    rw [hh, hw]
    obtain ⟨bcy, bcx, bh, bw⟩ := b
    congr 1 <;> field_simp

/-- Claim C1, witness: the round-trip theorem applied to a concrete anchor,
box and nonzero variance. -/
theorem delta_codec_roundtrip_witness :
    (kerasEpsilon < (2:ℝ) ∧ kerasEpsilon < (3:ℝ) ∧ kerasEpsilon < (1:ℝ)) ∧
    decodeDeltasToBoxes ⟨0,0,2,3⟩
      (encodeBoxToDeltas ⟨0,0,2,3⟩ ⟨5,3,2,1⟩ (some ⟨1,2,1,2⟩))
      (some ⟨1,2,1,2⟩) = ⟨5,3,2,1⟩ :=
  ⟨⟨by norm_num [kerasEpsilon], by norm_num [kerasEpsilon],
    by norm_num [kerasEpsilon]⟩,
   delta_codec_roundtrip ⟨0,0,2,3⟩ ⟨5,3,2,1⟩ (some ⟨1,2,1,2⟩)
    (by norm_num [kerasEpsilon]) (by norm_num [kerasEpsilon])
    (by norm_num [kerasEpsilon]) (by norm_num [kerasEpsilon])
    (by
      intro v hv
      injection hv with hv
      subst hv
      norm_num)⟩

/-! ## Claim C2: per-level anchor counts -/

/-- Claim C2, counterexample.  At image size 10 × 10 with stride 4 and two
elementwise (size, aspect-ratio) pairs, the generator emits `2 * 2 * 2 = 8`
anchors, while the claim's formula `ceil(h/stride) * ceil(w/stride) *
len(sizes) * len(aspect_ratios)` demands `3 * 3 * 2 * 2 = 36`: the grid has
`ceil((dim - stride/2)/stride)` cells per axis, not `ceil(dim/stride)`, and
sizes pair elementwise with aspect ratios instead of forming a cross
product. -/
theorem single_anchor_generator_count_cex :
    (singleAnchorGenerator 1 [1, 2] [1, 1] 4 false 10 10).map List.length
      = some 8 ∧
    (⌈(10:ℚ) / 4⌉).toNat * (⌈(10:ℚ) / 4⌉).toNat *
      (([(1:ℚ), 2]).length * ([(1:ℚ), 1]).length) ≠ 8 := by
  constructor
  · obtain ⟨hws, hbc, hlen⟩ :
        ∃ hws, anchorDims 1 [1, 2] [1, 1] = some hws ∧ hws.length = 2 := by
      refine ⟨_, rfl, ?_⟩
      rfl
    unfold singleAnchorGenerator
    rw [hbc]
    simp only [Option.map_some', Option.some.injEq]
    rw [length_flatMap_const _ _ hws.length (by intro a _; simp),
      gridCenters_length, tfRange_length, hlen]
    have h1 : ⌈((10:ℚ) - 4 / 2) / 4⌉ = 2 := by
      rw [Int.ceil_eq_iff]; norm_num
    rw [if_pos (by norm_num : (0:ℚ) < 4), h1]
    rfl
  · have h2 : ⌈(10:ℚ) / 4⌉ = 3 := by
      rw [Int.ceil_eq_iff]; norm_num
    rw [h2]
    decide

/-- Claim C2 (amended): per level, the generator returns exactly
`Hc * Wc * K` anchors, where per axis the cell count is
`max 0 ⌈(dim - stride/2) / stride⌉` — the number of centers
`stride * (0.5 + i)` that lie strictly below the image dimension, not
`ceil(dim/stride)` — and `K` is the length of the elementwise broadcast of
`sizes` against `aspect_ratios` (equal to `len(sizes)` when the two lists
have equal length, not `len(sizes) * len(aspect_ratios)`).  Cell centers sit
at `stride * (0.5 + i)` as claimed. -/
theorem single_anchor_generator_count (scale : ℚ) (sizes ars : List ℚ)
    (stride : ℚ) (clip : Bool) (height width : ℚ) (hws : List (ℝ × ℝ))
    (hbc : anchorDims scale sizes ars = some hws) :
    (singleAnchorGenerator scale sizes ars stride clip height width).map
        List.length
      = some ((tfRange (stride / 2) height stride).length *
          (tfRange (stride / 2) width stride).length * hws.length)
    ∧ (0 < stride →
        (tfRange (stride / 2) height stride).length
          = (⌈(height - stride / 2) / stride⌉).toNat ∧
        (tfRange (stride / 2) width stride).length
          = (⌈(width - stride / 2) / stride⌉).toNat)
    ∧ (∀ i : ℕ, i < (tfRange (stride / 2) height stride).length →
        (tfRange (stride / 2) height stride)[i]? = some (stride * (1/2 + i)))
    ∧ (∀ j : ℕ, j < (tfRange (stride / 2) width stride).length →
        (tfRange (stride / 2) width stride)[j]? = some (stride * (1/2 + j)))
    ∧ (sizes.length = ars.length → hws.length = sizes.length) := by
  refine ⟨?_, ?_, ?_, ?_, ?_⟩
  · unfold singleAnchorGenerator
    rw [hbc]
    simp only [Option.map_some']
    congr 1
    rw [length_flatMap_const _ _ hws.length (by intro a _; simp),
      gridCenters_length]
  · intro hs
    rw [tfRange_length, tfRange_length, if_pos hs, if_pos hs]
    exact ⟨rfl, rfl⟩
  · intro i hi
    rw [tfRange_getElem _ _ _ _ hi]
    congr 1
    ring
  · intro j hj
    rw [tfRange_getElem _ _ _ _ hj]
    congr 1
    ring
  · intro hlen
    have hb : broadcast2 sizes ars = some (sizes.zip ars) := by
      unfold broadcast2
      rw [if_pos hlen]
    unfold anchorDims at hbc
    rw [hb] at hbc
    simp only [Option.map_some', Option.some.injEq] at hbc
    rw [← hbc, List.length_map, List.length_zip, hlen, min_self]

/-- Claim C2, witness: the amended count theorem applied to a concrete
configuration. -/
theorem single_anchor_generator_count_witness :
    anchorDims 1 [1, 2] [1, 1] = some [(1, 1), (2, 2)] ∧
    ((singleAnchorGenerator 1 [1, 2] [1, 1] 4 false 10 10).map List.length
        = some ((tfRange (4 / 2) 10 4).length * (tfRange (4 / 2) 10 4).length *
            ([((1:ℝ), (1:ℝ)), (2, 2)]).length)
      ∧ (0 < (4:ℚ) →
          (tfRange (4 / 2) 10 4).length = (⌈((10:ℚ) - 4 / 2) / 4⌉).toNat ∧
          (tfRange (4 / 2) 10 4).length = (⌈((10:ℚ) - 4 / 2) / 4⌉).toNat)
      ∧ (∀ i : ℕ, i < (tfRange (4 / 2) 10 4).length →
          (tfRange (4 / 2) 10 4)[i]? = some ((4:ℚ) * (1/2 + i)))
      ∧ (∀ j : ℕ, j < (tfRange (4 / 2) 10 4).length →
          (tfRange (4 / 2) 10 4)[j]? = some ((4:ℚ) * (1/2 + j)))
      ∧ (([(1:ℚ), 2]).length = ([(1:ℚ), 1]).length →
          ([((1:ℝ), (1:ℝ)), (2, 2)]).length = ([(1:ℚ), 2]).length)) :=
  ⟨anchorDims_example,
   single_anchor_generator_count 1 [1, 2] [1, 1] 4 false 10 10
      [(1, 1), (2, 2)] anchorDims_example⟩

end KerasCV

namespace KerasCV

/-! ## Claim C3: per-cell anchor shapes and placement -/

/-- Claim C3, counterexample.  The claim says one anchor is emitted per
`(size, aspect_ratio)` pair.  With `sizes = [1, 2]` and
`aspect_ratios = [1/4, 4]` the cross product has 4 pairs, but the code pairs
the lists elementwise (TensorFlow broadcasting) and emits only 2 anchor
shapes per cell: on a one-cell grid the generator emits 2 anchors, not 4. -/
theorem single_anchor_generator_elementwise_cex :
    (singleAnchorGenerator 1 [1, 2] [1/4, 4] 4 false 4 4).map List.length
      = some 2 ∧
    (crossProductAnchorDims 1 [1, 2] [1/4, 4]).length = 4 ∧
    (2 : ℕ) ≠ 4 := by
  refine ⟨?_, rfl, by decide⟩
  obtain ⟨hws, hbc, hlen⟩ :
      ∃ hws, anchorDims 1 [1, 2] [1/4, 4] = some hws ∧ hws.length = 2 :=
    ⟨_, rfl, rfl⟩
  rw [singleAnchorGenerator, hbc, Option.map_some', gridCenters_four]
  simp [hlen]

/-- Claim C3 (amended): for equal-length `sizes` and `aspect_ratios` the
generator emits, per spatial cell, one anchor per *elementwise* pair
`(sizes[k], aspect_ratios[k])` (not per cross-product pair), with
`height = size * scale / sqrt(aspect_ratio)` and
`width = size * scale * sqrt(aspect_ratio)`, as the corner-format box
`[cy - h/2, cx - w/2, cy + h/2, cx + w/2]` in absolute image coordinates:
the anchor at flat index `(i * Wc + j) * K + k` is exactly that box for the
cell center `(stride * (1/2 + i), stride * (1/2 + j))`. -/
theorem single_anchor_generator_box_formula (scale : ℚ) (sizes ars : List ℚ)
    (stride height width : ℚ) (hws : List (ℝ × ℝ)) (l : List AnchorBox)
    (hlen : sizes.length = ars.length)
    (hbc : anchorDims scale sizes ars = some hws)
    (hgen : singleAnchorGenerator scale sizes ars stride false height width
      = some l)
    (i j k : ℕ)
    (hi : i < (tfRange (stride / 2) height stride).length)
    (hj : j < (tfRange (stride / 2) width stride).length)
    (hk : k < hws.length) :
    l[(i * (tfRange (stride / 2) width stride).length + j) * hws.length + k]? =
      some (AnchorBox.mk
        (((stride * (1/2 + i) : ℚ) : ℝ)
          - ((sizes.getD k 0 : ℚ) : ℝ) * (scale : ℝ)
            / Real.sqrt ((ars.getD k 0 : ℚ) : ℝ) / 2)
        (((stride * (1/2 + j) : ℚ) : ℝ)
          - ((sizes.getD k 0 : ℚ) : ℝ) * (scale : ℝ)
            * Real.sqrt ((ars.getD k 0 : ℚ) : ℝ) / 2)
        (((stride * (1/2 + i) : ℚ) : ℝ)
          + ((sizes.getD k 0 : ℚ) : ℝ) * (scale : ℝ)
            / Real.sqrt ((ars.getD k 0 : ℚ) : ℝ) / 2)
        (((stride * (1/2 + j) : ℚ) : ℝ)
          + ((sizes.getD k 0 : ℚ) : ℝ) * (scale : ℝ)
            * Real.sqrt ((ars.getD k 0 : ℚ) : ℝ) / 2)) := by
  have hb : broadcast2 sizes ars = some (sizes.zip ars) := by
    unfold broadcast2
    rw [if_pos hlen]
  have hws_eq : hws = (sizes.zip ars).map
      (fun p => (((p.1 : ℚ) : ℝ) * (scale : ℝ) / Real.sqrt ((p.2 : ℚ) : ℝ),
        ((p.1 : ℚ) : ℝ) * (scale : ℝ) * Real.sqrt ((p.2 : ℚ) : ℝ))) := by
    unfold anchorDims at hbc
    rw [hb] at hbc
    simp only [Option.map_some', Option.some.injEq] at hbc
    exact hbc.symm
  have hkzip : k < (sizes.zip ars).length := by
    rw [hws_eq, List.length_map] at hk
    exact hk
  have hks : k < sizes.length := by
    rw [List.length_zip, hlen, min_self] at hkzip
    rw [hlen]
    exact hkzip
  have hka : k < ars.length := by
    rw [← hlen]
    exact hks
  have hl : l = (gridCenters stride height width).flatMap
      (fun c => hws.map (mkAnchor false height width c)) := by
    unfold singleAnchorGenerator at hgen
    rw [hbc] at hgen
    simp only [Option.map_some', Option.some.injEq] at hgen
    exact hgen.symm
  have hm : i * (tfRange (stride / 2) width stride).length + j <
      (gridCenters stride height width).length := by
    rw [gridCenters_length]
    calc i * (tfRange (stride / 2) width stride).length + j
        < (i + 1) * (tfRange (stride / 2) width stride).length := by
          rw [Nat.succ_mul]
          omega
      _ ≤ (tfRange (stride / 2) height stride).length *
            (tfRange (stride / 2) width stride).length :=
          Nat.mul_le_mul_right _ hi
  have hcenter : (gridCenters stride height width).get ⟨_, hm⟩ =
      (stride / 2 + i * stride, stride / 2 + j * stride) := by
    have h1 : (gridCenters stride height width)[i *
        (tfRange (stride / 2) width stride).length + j]? =
        some ((tfRange (stride / 2) height stride).get ⟨i, hi⟩,
          (tfRange (stride / 2) width stride).get ⟨j, hj⟩) := by
      unfold gridCenters
      rw [flatMap_getElem_const _ _ (tfRange (stride / 2) width stride).length
        (fun c _ => by simp) i j hi hj]
      rw [List.getElem?_map, List.getElem?_eq_getElem hj, Option.map_some']
      rfl
    have h2 := tfRange_getElem (stride / 2) height stride i hi
    have h3 := tfRange_getElem (stride / 2) width stride j hj
    rw [List.getElem?_eq_getElem hi] at h2
    rw [List.getElem?_eq_getElem hj] at h3
    rw [List.getElem?_eq_getElem hm] at h1
    injection h1 with h1
    injection h2 with h2
    injection h3 with h3
    simp only [List.get_eq_getElem] at h1 h2 h3 ⊢
    rw [h1, h2, h3]
  have h4 : hws[k]? = some
      ((sizes[k] : ℝ) * (scale : ℝ) / Real.sqrt (ars[k] : ℝ),
       (sizes[k] : ℝ) * (scale : ℝ) * Real.sqrt (ars[k] : ℝ)) := by
    rw [hws_eq, List.getElem?_map, List.getElem?_eq_getElem hkzip,
      Option.map_some', List.getElem_zip]
  rw [List.getElem?_eq_getElem hk] at h4
  injection h4 with h4
  rw [hl]
  rw [flatMap_getElem_const _ _ hws.length (fun c _ => by simp) _ k hm hk]
  rw [List.getElem?_map, List.getElem?_eq_getElem hk, Option.map_some',
    List.get_eq_getElem] at *
  rw [hcenter, h4, List.getD_eq_getElem sizes 0 hks,
    List.getD_eq_getElem ars 0 hka]
  have hqi : stride / 2 + (i : ℚ) * stride = stride * (1/2 + i) := by ring
  have hqj : stride / 2 + (j : ℚ) * stride = stride * (1/2 + j) := by ring
  rw [hqi, hqj]
  simp [mkAnchor, clipCoord]

/-- Claim C3, witness: the amended box-formula theorem applied to a concrete
one-cell configuration at `i = j = k = 0`. -/
theorem single_anchor_generator_box_formula_witness :
    singleAnchorGenerator 1 [1, 2] [1, 1] 4 false 4 4 =
      some [⟨3/2, 3/2, 5/2, 5/2⟩, ⟨1, 1, 3, 3⟩] ∧
    ([(⟨3/2, 3/2, 5/2, 5/2⟩ : AnchorBox), ⟨1, 1, 3, 3⟩])[
        (0 * (tfRange (4 / 2) 4 4).length + 0) *
          ([((1:ℝ), (1:ℝ)), (2, 2)]).length + 0]? =
      some (AnchorBox.mk
        ((((4 * (1/2 + ((0:ℕ):ℚ)) : ℚ)) : ℝ)
          - (([(1:ℚ), 2].getD 0 0 : ℚ) : ℝ) * ((1:ℚ) : ℝ)
            / Real.sqrt (([(1:ℚ), 1].getD 0 0 : ℚ) : ℝ) / 2)
        ((((4 * (1/2 + ((0:ℕ):ℚ)) : ℚ)) : ℝ)
          - (([(1:ℚ), 2].getD 0 0 : ℚ) : ℝ) * ((1:ℚ) : ℝ)
            * Real.sqrt (([(1:ℚ), 1].getD 0 0 : ℚ) : ℝ) / 2)
        ((((4 * (1/2 + ((0:ℕ):ℚ)) : ℚ)) : ℝ)
          + (([(1:ℚ), 2].getD 0 0 : ℚ) : ℝ) * ((1:ℚ) : ℝ)
            / Real.sqrt (([(1:ℚ), 1].getD 0 0 : ℚ) : ℝ) / 2)
        ((((4 * (1/2 + ((0:ℕ):ℚ)) : ℚ)) : ℝ)
          + (([(1:ℚ), 2].getD 0 0 : ℚ) : ℝ) * ((1:ℚ) : ℝ)
            * Real.sqrt (([(1:ℚ), 1].getD 0 0 : ℚ) : ℝ) / 2)) :=
  ⟨single_anchor_generator_small,
   single_anchor_generator_box_formula 1 [1, 2] [1, 1] 4 4 4
    [(1, 1), (2, 2)] [⟨3/2, 3/2, 5/2, 5/2⟩, ⟨1, 1, 3, 3⟩] rfl
    anchorDims_example single_anchor_generator_small 0 0 0
    (by rw [tfRange_two_four_four]; decide)
    (by rw [tfRange_two_four_four]; decide)
    (by decide)⟩

/-! ## Claim C6: clipping bounds -/

/-- Claim C6 (confirmed): with `clip_boxes` enabled, every coordinate of
every generated anchor lies in `[0, image_dimension]` for its axis — y
coordinates within `[0, height]`, x coordinates within `[0, width]` — each
coordinate clamped independently. -/
theorem single_anchor_generator_clip (scale : ℚ) (sizes ars : List ℚ)
    (stride height width : ℚ) (l : List AnchorBox)
    (hgen : singleAnchorGenerator scale sizes ars stride true height width
      = some l)
    (hh : 0 ≤ height) (hw : 0 ≤ width) :
    ∀ b ∈ l, (0 ≤ b.yMin ∧ b.yMin ≤ (height : ℝ)) ∧
      (0 ≤ b.xMin ∧ b.xMin ≤ (width : ℝ)) ∧
      (0 ≤ b.yMax ∧ b.yMax ≤ (height : ℝ)) ∧
      (0 ≤ b.xMax ∧ b.xMax ≤ (width : ℝ)) := by
  have hH : (0:ℝ) ≤ (height : ℝ) := by exact_mod_cast hh
  have hW : (0:ℝ) ≤ (width : ℝ) := by exact_mod_cast hw
  obtain ⟨hws, hl⟩ : ∃ hws : List (ℝ × ℝ),
      l = (gridCenters stride height width).flatMap
        (fun c => hws.map (mkAnchor true height width c)) := by
    unfold singleAnchorGenerator at hgen
    cases hbc : anchorDims scale sizes ars with
    | none =>
      rw [hbc] at hgen
      simp at hgen
    | some hws =>
      rw [hbc] at hgen
      simp only [Option.map_some', Option.some.injEq] at hgen
      exact ⟨hws, hgen.symm⟩
  intro b hb
  rw [hl, List.mem_flatMap] at hb
  obtain ⟨c, _, hb⟩ := hb
  rw [List.mem_map] at hb
  obtain ⟨hwp, _, rfl⟩ := hb
  refine ⟨⟨?_, ?_⟩, ⟨?_, ?_⟩, ⟨?_, ?_⟩, ⟨?_, ?_⟩⟩ <;>
    simp only [mkAnchor, clipCoord, if_true] <;>
    first
      | exact le_max_right _ _
      | exact max_le (min_le_right _ _) hH
      | exact max_le (min_le_right _ _) hW

/-- Claim C6, witness: the clipping theorem applied to a concrete
configuration. -/
theorem single_anchor_generator_clip_witness :
    (singleAnchorGenerator 1 [1, 2] [1, 1] 4 true 4 4 =
        some [⟨3/2, 3/2, 5/2, 5/2⟩, ⟨1, 1, 3, 3⟩] ∧
      (0:ℚ) ≤ 4) ∧
    (∀ b ∈ ([(⟨3/2, 3/2, 5/2, 5/2⟩ : AnchorBox), ⟨1, 1, 3, 3⟩]),
      (0 ≤ b.yMin ∧ b.yMin ≤ ((4:ℚ) : ℝ)) ∧
      (0 ≤ b.xMin ∧ b.xMin ≤ ((4:ℚ) : ℝ)) ∧
      (0 ≤ b.yMax ∧ b.yMax ≤ ((4:ℚ) : ℝ)) ∧
      (0 ≤ b.xMax ∧ b.xMax ≤ ((4:ℚ) : ℝ))) :=
  ⟨⟨single_anchor_generator_small_clip, by norm_num⟩,
   single_anchor_generator_clip 1 [1, 2] [1, 1] 4 4 4
    [⟨3/2, 3/2, 5/2, 5/2⟩, ⟨1, 1, 3, 3⟩]
    single_anchor_generator_small_clip (by norm_num) (by norm_num)⟩

end KerasCV

namespace KerasCV

/-! ## Claim C7: sizes/strides length validation at construction -/

/-- Claim C7 (confirmed): whenever, after broadcasting, some level's `sizes`
and `strides` lists have different lengths, the constructor fails — before
any generation call, since a generator value only exists for an `.ok`
result — with a configuration error that names an offending level. -/
theorem anchor_generator_sizes_strides_mismatch
    (sizes : LevelParam) (scales : ScalesParam)
    (aspectRatios strides : LevelParam) (clip : Bool)
    (sizesD stridesD : List (String × List ℚ))
    (hs : broadcastParameterToScales sizes "sizes" (packScalesToDict scales)
      = .ok sizesD)
    (ht : broadcastParameterToScales strides "strides" (packScalesToDict scales)
      = .ok stridesD)
    (lvl : String) (sz : List ℚ) (hmem : (lvl, sz) ∈ sizesD)
    (hmm : sz.length ≠ ((stridesD.lookup lvl).getD []).length) :
    ∃ lvl2 sz2, anchorGeneratorInit sizes scales aspectRatios strides clip =
        .error (.sizesStridesMismatch lvl2) ∧ (lvl2, sz2) ∈ sizesD ∧
      sz2.length ≠ ((stridesD.lookup lvl2).getD []).length := by
  obtain ⟨lvl2, sz2, hval, hm2, hne2⟩ :=
    validateSizesAndStrides_error sizesD stridesD lvl sz hmem hmm
  refine ⟨lvl2, sz2, ?_, hm2, hne2⟩
  unfold anchorGeneratorInit
  simp only [hs, ht, hval]

/-- Claim C7, witness: the spec's example — `sizes={"l1": [32,64,128,256,512]}`
against `strides={"l1": [5,10,100]}` — raises at construction, naming level
`l1`. -/
theorem anchor_generator_sizes_strides_mismatch_witness :
    (broadcastParameterToScales (.perLevel [("l1", [32, 64, 128, 256, 512])])
        "sizes" (packScalesToDict (.perLevel [("l1", 1)]))
        = .ok [("l1", [32, 64, 128, 256, 512])] ∧
      broadcastParameterToScales (.perLevel [("l1", [5, 10, 100])])
        "strides" (packScalesToDict (.perLevel [("l1", 1)]))
        = .ok [("l1", [5, 10, 100])] ∧
      ([(32:ℚ), 64, 128, 256, 512]).length ≠
        ((([("l1", [(5:ℚ), 10, 100])]).lookup "l1").getD []).length) ∧
    (∃ lvl2 sz2,
      anchorGeneratorInit (.perLevel [("l1", [32, 64, 128, 256, 512])])
          (.perLevel [("l1", 1)]) (.flat [1, 2])
          (.perLevel [("l1", [5, 10, 100])]) false
        = .error (.sizesStridesMismatch lvl2) ∧
      (lvl2, sz2) ∈ [("l1", [(32:ℚ), 64, 128, 256, 512])] ∧
      sz2.length ≠ ((([("l1", [(5:ℚ), 10, 100])]).lookup lvl2).getD []).length) :=
  ⟨⟨rfl, rfl, by decide⟩,
   anchor_generator_sizes_strides_mismatch
    (.perLevel [("l1", [32, 64, 128, 256, 512])]) (.perLevel [("l1", 1)])
    (.flat [1, 2]) (.perLevel [("l1", [5, 10, 100])]) false
    [("l1", [32, 64, 128, 256, 512])] [("l1", [5, 10, 100])]
    rfl rfl "l1" [32, 64, 128, 256, 512]
    (List.mem_singleton.mpr rfl) (by decide)⟩

/-! ## Claim C10: flat-list construction -/

/-- Claim C10, counterexample.  With flat lists `scales=[1]`,
`sizes=[1, 2]`, `aspect_ratios=[1, 1]`, `strides=[4, 4]` the constructor
does produce one level `level_0` holding the whole `sizes` and
`aspect_ratios` lists — but that level generates only 2 anchor shapes per
cell (the elementwise broadcast), not the `2 * 2 = 4` of the claimed full
cross product. -/
theorem anchor_generator_flat_crossproduct_cex :
    anchorGeneratorInit (.flat [1, 2]) (.flat [1]) (.flat [1, 1])
        (.flat [4, 4]) false
      = .ok [("level_0", ⟨1, [1, 2], [1, 1], [4, 4], false⟩)] ∧
    (anchorDims 1 [1, 2] [1, 1]).map List.length = some 2 ∧
    ([(1:ℚ), 2]).length * ([(1:ℚ), 1]).length ≠ 2 := by
  refine ⟨rfl, ?_, by decide⟩
  rw [anchorDims_example]
  rfl

/-- Claim C10 (amended): constructed from flat lists, the generator has
`len(scales)` levels named `level_0 .. level_{n-1}` in input order, each
holding one element of `scales` and wholesale copies of the `sizes`,
`aspect_ratios` and `strides` lists; each level then pairs `sizes` with
`aspect_ratios` *elementwise* under broadcasting — `len(sizes)` anchor
shapes per cell when the lists have equal length — while the full
`sizes × aspect_ratios` cross product of the original claim would have
`len(sizes) * len(aspect_ratios)` shapes. -/
theorem anchor_generator_flat_construction (scalesL L R D : List ℚ)
    (clip : Bool) (hLD : L.length = D.length) :
    anchorGeneratorInit (.flat L) (.flat scalesL) (.flat R) (.flat D) clip =
      .ok (scalesL.enum.map fun p =>
        ("level_" ++ toString p.1, ⟨p.2, L, R, D, clip⟩)) ∧
    (∀ scale : ℚ, L.length = R.length →
      (anchorDims scale L R).map List.length = some L.length) ∧
    (∀ scale : ℚ, (crossProductAnchorDims scale L R).length
      = L.length * R.length) := by
  refine ⟨?_, ?_, ?_⟩
  · have hval : validateSizesAndStrides
        ((packScalesToDict (.flat scalesL)).map fun p => (p.1, L))
        ((packScalesToDict (.flat scalesL)).map fun p => (p.1, D))
        = .ok () := by
      apply validateSizesAndStrides_ok
      intro p hp
      obtain ⟨q, hq, rfl⟩ := List.mem_map.mp hp
      rw [lookup_map_const (packScalesToDict (.flat scalesL)) D q.1
        (List.mem_map_of_mem Prod.fst hq)]
      simpa using hLD.symm
    simp only [anchorGeneratorInit, broadcast_flat, hval]
    congr 1
    show (scalesL.enum.map fun p => ("level_" ++ toString p.1, p.2)).map _
      = scalesL.enum.map _
    rw [List.map_map]
    apply List.map_congr_left
    intro p hp
    simp only [Function.comp]
    have hkey : ("level_" ++ toString p.1) ∈
        (packScalesToDict (.flat scalesL)).map Prod.fst :=
      List.mem_map.mpr ⟨("level_" ++ toString p.1, p.2),
        List.mem_map_of_mem _ hp, rfl⟩
    rw [lookup_map_const _ L _ hkey, lookup_map_const _ R _ hkey,
      lookup_map_const _ D _ hkey]
    rfl
  · intro scale hLR
    have hb : broadcast2 L R = some (L.zip R) := by
      unfold broadcast2
      rw [if_pos hLR]
    unfold anchorDims
    rw [hb, Option.map_some', Option.map_some']
    rw [List.length_map, List.length_zip, hLR, min_self]
  · intro scale
    unfold crossProductAnchorDims
    rw [length_flatMap_const _ _ R.length fun a _ => by simp]

/-- Claim C10, witness: the amended flat-construction theorem applied to a
concrete flat configuration. -/
theorem anchor_generator_flat_construction_witness :
    ([(1:ℚ), 2]).length = ([(4:ℚ), 4]).length ∧
    (anchorGeneratorInit (.flat [1, 2]) (.flat [1]) (.flat [1, 1])
          (.flat [4, 4]) false
        = .ok ((([(1:ℚ)]).enum).map fun p =>
          ("level_" ++ toString p.1, ⟨p.2, [1, 2], [1, 1], [4, 4], false⟩)) ∧
      (∀ scale : ℚ, ([(1:ℚ), 2]).length = ([(1:ℚ), 1]).length →
        (anchorDims scale [1, 2] [1, 1]).map List.length
          = some ([(1:ℚ), 2]).length) ∧
      (∀ scale : ℚ, (crossProductAnchorDims scale [1, 2] [1, 1]).length
        = ([(1:ℚ), 2]).length * ([(1:ℚ), 1]).length)) :=
  ⟨rfl, anchor_generator_flat_construction [1] [1, 2] [1, 1] [4, 4] false rfl⟩

end KerasCV

namespace KerasCV

/-! ## Claim C4: accumulation placement in `update_state` -/

/-- Claim C4 (code bug): the once-per-image accumulation discipline the
claim states is the evident intent of both near-duplicate variants — their
loop texts place the ground-truth scatter-add inside the category loop but
outside the threshold loop — but as staged only `InGraphBoxRecall` exhibits
it: `_BoxRecall.update_state` computes `num_images = tf.shape(y_true)[0]`
on the bounding-box dict (recall.py line 168), where `tf.shape` raises
`TypeError` on every call that passes the rank check, so that variant never
reaches its accumulation loops, while its working twin reads
`tf.shape(y_true["classes"])[0]` (in_graph_recall.py line 121).  Proved
here: a batched (rank-3) in-graph update succeeds and accumulates so that
the per-category ground-truth total receives, for each image, exactly one
addition — the count of that image's boxes of the category after area and
category filtering — independent of the IoU thresholds (the accumulators
under any other threshold list get the same ground-truth counts), while the
true-positive cell `(t, k)` receives one addition per image of the matched
count at threshold `t` and category `k`; and the staged `_BoxRecall`
variant, evaluated at the same batched input, raises the `TypeError`
instead of accumulating. -/
theorem recall_gt_once_per_image (cfg : RecallConfig) (st : RecallState)
    (yTrue : List (List GtBox)) (yPred : List (List DetBox)) (t k : ℕ)
    (ht : t < cfg.iouThresholds.length) (hk : k < cfg.classIds.length) :
    inGraphUpdateState cfg st (BoxTensorInput.mk 3 yTrue)
        (BoxTensorInput.mk 3 yPred)
      = .ok (addStates st (updateCounts cfg yTrue yPred)) ∧
    (addStates st (updateCounts cfg yTrue yPred)).groundTruthBoxes k
      = st.groundTruthBoxes k +
        ((List.range yTrue.length).map
          (fun i => gtContribution cfg (yTrue.getD i []) k)).sum ∧
    (addStates st (updateCounts cfg yTrue yPred)).truePositives t k
      = st.truePositives t k +
        ((List.range yTrue.length).map
          (fun i => tpContribution cfg (yTrue.getD i []) (yPred.getD i []) t k)
          ).sum ∧
    (∀ thresholds2 : List ℚ,
      (updateCounts (RecallConfig.mk cfg.classIds thresholds2 cfg.areaRange
          cfg.maxDetections) yTrue yPred).groundTruthBoxes k
        = (updateCounts cfg yTrue yPred).groundTruthBoxes k) ∧
    boxRecallUpdateState cfg st (BoxTensorInput.mk 3 yTrue)
        (BoxTensorInput.mk 3 yPred)
      = .error .typeError := by
  refine ⟨?_, ?_, ?_, ?_, ?_⟩
  · unfold inGraphUpdateState
    rw [if_neg (by simp)]
  · simp only [addStates, updateCounts]
    rw [imageFold_gt _ _ _ _ _ _ hk]
    simp [initialRecallState]
  · simp only [addStates, updateCounts]
    rw [imageFold_tp _ _ _ _ _ _ _ ht hk]
    simp [initialRecallState]
  · intro ths2
    unfold updateCounts
    rw [imageFold_gt _ _ _ _ _ _ hk,
      imageFold_gt (RecallConfig.mk cfg.classIds ths2 cfg.areaRange
        cfg.maxDetections) _ _ _ _ _ hk]
    rfl
  · unfold boxRecallUpdateState
    rw [if_neg (by simp)]

/-- Claim C4, witness: the accumulation theorem applied to a concrete
one-image, one-category, one-threshold batch. -/
theorem recall_gt_once_per_image_witness :
    ((0:ℕ) < (RecallConfig.mk [0] [1/2] none 100).iouThresholds.length ∧
      (0:ℕ) < (RecallConfig.mk [0] [1/2] none 100).classIds.length) ∧
    (inGraphUpdateState (RecallConfig.mk [0] [1/2] none 100)
        initialRecallState
        (BoxTensorInput.mk 3 [[GtBox.mk (Box4.mk 0 0 1 1) 0]])
        (BoxTensorInput.mk 3 [[DetBox.mk (Box4.mk 0 0 1 1) 0 1]])
      = .ok (addStates initialRecallState
          (updateCounts (RecallConfig.mk [0] [1/2] none 100)
            [[GtBox.mk (Box4.mk 0 0 1 1) 0]]
            [[DetBox.mk (Box4.mk 0 0 1 1) 0 1]])) ∧
    (addStates initialRecallState
        (updateCounts (RecallConfig.mk [0] [1/2] none 100)
          [[GtBox.mk (Box4.mk 0 0 1 1) 0]]
          [[DetBox.mk (Box4.mk 0 0 1 1) 0 1]])).groundTruthBoxes 0
      = initialRecallState.groundTruthBoxes 0 +
        ((List.range ([[GtBox.mk (Box4.mk 0 0 1 1) 0]]).length).map
          (fun i => gtContribution (RecallConfig.mk [0] [1/2] none 100)
            (([[GtBox.mk (Box4.mk 0 0 1 1) 0]]).getD i []) 0)).sum ∧
    (addStates initialRecallState
        (updateCounts (RecallConfig.mk [0] [1/2] none 100)
          [[GtBox.mk (Box4.mk 0 0 1 1) 0]]
          [[DetBox.mk (Box4.mk 0 0 1 1) 0 1]])).truePositives 0 0
      = initialRecallState.truePositives 0 0 +
        ((List.range ([[GtBox.mk (Box4.mk 0 0 1 1) 0]]).length).map
          (fun i => tpContribution (RecallConfig.mk [0] [1/2] none 100)
            (([[GtBox.mk (Box4.mk 0 0 1 1) 0]]).getD i [])
            (([[DetBox.mk (Box4.mk 0 0 1 1) 0 1]]).getD i []) 0 0)).sum ∧
    (∀ thresholds2 : List ℚ,
      (updateCounts (RecallConfig.mk
          (RecallConfig.mk [0] [1/2] none 100).classIds thresholds2
          (RecallConfig.mk [0] [1/2] none 100).areaRange
          (RecallConfig.mk [0] [1/2] none 100).maxDetections)
          [[GtBox.mk (Box4.mk 0 0 1 1) 0]]
          [[DetBox.mk (Box4.mk 0 0 1 1) 0 1]]).groundTruthBoxes 0
        = (updateCounts (RecallConfig.mk [0] [1/2] none 100)
          [[GtBox.mk (Box4.mk 0 0 1 1) 0]]
          [[DetBox.mk (Box4.mk 0 0 1 1) 0 1]]).groundTruthBoxes 0) ∧
    boxRecallUpdateState (RecallConfig.mk [0] [1/2] none 100)
        initialRecallState
        (BoxTensorInput.mk 3 [[GtBox.mk (Box4.mk 0 0 1 1) 0]])
        (BoxTensorInput.mk 3 [[DetBox.mk (Box4.mk 0 0 1 1) 0 1]])
      = .error .typeError) :=
  ⟨⟨by decide, by decide⟩,
   recall_gt_once_per_image (RecallConfig.mk [0] [1/2] none 100)
    initialRecallState [[GtBox.mk (Box4.mk 0 0 1 1) 0]]
    [[DetBox.mk (Box4.mk 0 0 1 1) 0 1]] 0 0 (by decide) (by decide)⟩

/-! ## Claim C5: the `result()` formula -/

/-- Claim C5 (confirmed): for every accumulator state, `result()` equals the
mean over IoU thresholds of the per-category recalls `tp / gt` summed over
exactly the categories with nonzero ground truth and divided by the number
of such categories (zero-ground-truth categories contribute 0 and are
excluded from the denominator); and a fresh or just-reset metric returns
exactly 0 — the division guards (`divide_no_nan` and the present-category
short-circuit) make the computation total. -/
theorem recall_result_formula (cfg : RecallConfig) (st : RecallState) :
    recallResult cfg st = recallResultSpec cfg st ∧
    recallResult cfg (resetRecallState st) = 0 ∧
    recallResult cfg initialRecallState = 0 := by
  have hinit : recallResult cfg initialRecallState = 0 := by
    unfold recallResult nPresentCategories initialRecallState
    simp
  refine ⟨?_, hinit, hinit⟩
  unfold recallResult recallResultSpec nPresentCategories
  by_cases h : ((Finset.range cfg.classIds.length).filter
      fun k => st.groundTruthBoxes k ≠ 0).card = 0
  · rw [if_pos h, if_pos h]
  · rw [if_neg h, if_neg h]
    congr 1
    apply Finset.sum_congr rfl
    intro t _
    congr 1
    rw [← Finset.sum_filter_add_sum_filter_not
      (Finset.range cfg.classIds.length)
      (fun k => st.groundTruthBoxes k ≠ 0)
      (fun k => divideNoNan (st.truePositives t k) (st.groundTruthBoxes k))]
    have h2 : ∑ k ∈ (Finset.range cfg.classIds.length).filter
        (fun k => ¬st.groundTruthBoxes k ≠ 0),
        divideNoNan (st.truePositives t k) (st.groundTruthBoxes k) = 0 := by
      apply Finset.sum_eq_zero
      intro k hkmem
      have hz : st.groundTruthBoxes k = 0 :=
        not_ne_iff.mp (Finset.mem_filter.mp hkmem).2
      simp [divideNoNan, hz]
    rw [h2, add_zero]
    apply Finset.sum_congr rfl
    intro k hkmem
    have hnz : st.groundTruthBoxes k ≠ 0 := (Finset.mem_filter.mp hkmem).2
    unfold divideNoNan
    rw [if_neg (by exact_mod_cast hnz)]

/-! ## Claim C8: unbatched inputs are rejected without state mutation -/

/-- Claim C8: an `update_state` call whose `y_true` or `y_pred` boxes tensor
is not rank 3 is rejected by the rank check before any accumulator is
touched — the validation precedes every computation, and the accumulated
updates are only applied by the final `assign_add`, so a rejected call
leaves the state exactly as it was (an `.error` result carries no new
state).  Note the source's slip recorded with this claim: the rejection is
intended as a `ValueError`, but building its message evaluates
`y_true["boxes"].shape.ranks`, an attribute that does not exist, so Python
actually raises an `AttributeError` from inside the raise statement. -/
theorem recall_unbatched_update_rejected (cfg : RecallConfig)
    (st : RecallState) (yTrue : BoxTensorInput (List GtBox))
    (yPred : BoxTensorInput (List DetBox))
    (h : yTrue.boxesRank ≠ 3 ∨ yPred.boxesRank ≠ 3) :
    boxRecallUpdateState cfg st yTrue yPred = .error .validationError ∧
    inGraphUpdateState cfg st yTrue yPred = .error .validationError := by
  unfold boxRecallUpdateState inGraphUpdateState
  rw [if_pos h, if_pos h]
  exact ⟨rfl, rfl⟩

/-- Claim C8, witness: the rejection theorem applied to a concrete rank-2
(unbatched) `y_true`. -/
theorem recall_unbatched_update_rejected_witness :
    ((BoxTensorInput.mk 2 ([] : List (List GtBox))).boxesRank ≠ 3 ∨
      (BoxTensorInput.mk 3 ([] : List (List DetBox))).boxesRank ≠ 3) ∧
    (boxRecallUpdateState (RecallConfig.mk [0] [1/2] none 100)
        initialRecallState (BoxTensorInput.mk 2 []) (BoxTensorInput.mk 3 [])
        = .error .validationError ∧
      inGraphUpdateState (RecallConfig.mk [0] [1/2] none 100)
        initialRecallState (BoxTensorInput.mk 2 []) (BoxTensorInput.mk 3 [])
        = .error .validationError) :=
  ⟨Or.inl (by decide),
   recall_unbatched_update_rejected (RecallConfig.mk [0] [1/2] none 100)
    initialRecallState (BoxTensorInput.mk 2 []) (BoxTensorInput.mk 3 [])
    (Or.inl (by decide))⟩

/-! ## Claim C9: division-by-zero behaviour of the metrics -/

/-- Claim C9, counterexample.  `MeanBoxCountDelta.result` is an unguarded
division `delta_sum / samples`; with zero accumulated samples it computes
the float `0.0 / 0.0`, which is NaN (`none` in this model), not 0. -/
theorem mbcd_fresh_result_cex :
    initialMeanBoxCountDelta.result = none ∧
    initialMeanBoxCountDelta.result ≠ some 0 := by
  constructor
  · rfl
  · intro h
    exact Option.noConfusion h

/-- Claim C9 (amended): in the box recall metric every division is guarded —
a state with no present category yields result 0 outright, and a category
with zero ground truth contributes a 0 recall through `divide_no_nan` —
but `MeanBoxCountDelta.result` divides unguarded: with zero accumulated
samples it returns NaN (non-finite, `none`), not 0, and with nonzero
samples the finite quotient `delta_sum / samples`. -/
theorem division_by_zero_guards :
    (∀ (cfg : RecallConfig) (st : RecallState),
      nPresentCategories cfg st = 0 → recallResult cfg st = 0) ∧
    (∀ (st : RecallState) (t k : ℕ), st.groundTruthBoxes k = 0 →
      divideNoNan (st.truePositives t k) (st.groundTruthBoxes k) = 0) ∧
    (∀ st : MeanBoxCountDeltaState, st.samples = 0 → st.result = none) ∧
    (∀ st : MeanBoxCountDeltaState, st.samples ≠ 0 →
      st.result = some (st.deltaSum / st.samples)) := by
  refine ⟨?_, ?_, ?_, ?_⟩
  · intro cfg st h
    unfold recallResult
    rw [if_pos h]
  · intro st t k h
    simp [divideNoNan, h]
  · intro st h
    unfold MeanBoxCountDeltaState.result tfDiv
    rw [if_pos h]
  · intro st h
    unfold MeanBoxCountDeltaState.result tfDiv
    rw [if_neg h]

/-- Claim C9, witness: the division-guard theorem applied to concrete
states. -/
theorem division_by_zero_guards_witness :
    (nPresentCategories (RecallConfig.mk [0] [1/2] none 100)
        initialRecallState = 0 ∧
      initialRecallState.groundTruthBoxes 0 = 0 ∧
      initialMeanBoxCountDelta.samples = 0 ∧
      (MeanBoxCountDeltaState.mk 4 2).samples ≠ 0) ∧
    (recallResult (RecallConfig.mk [0] [1/2] none 100) initialRecallState
        = 0 ∧
      divideNoNan (initialRecallState.truePositives 0 0)
        (initialRecallState.groundTruthBoxes 0) = 0 ∧
      initialMeanBoxCountDelta.result = none ∧
      (MeanBoxCountDeltaState.mk 4 2).result
        = some ((MeanBoxCountDeltaState.mk 4 2).deltaSum
            / (MeanBoxCountDeltaState.mk 4 2).samples)) :=
  ⟨⟨by decide, rfl, rfl, by norm_num⟩,
   ⟨division_by_zero_guards.1 (RecallConfig.mk [0] [1/2] none 100)
      initialRecallState (by decide),
    division_by_zero_guards.2.1 initialRecallState 0 0 rfl,
    division_by_zero_guards.2.2.1 initialMeanBoxCountDelta rfl,
    division_by_zero_guards.2.2.2 (MeanBoxCountDeltaState.mk 4 2)
      (by norm_num)⟩⟩

end KerasCV
